import Mathlib

/-!
Verification of the api_yamdb access-control and data-integrity layer.

Shallow embedding of the permission classes (`api/permissions.py`), the
signup/token endpoints (`api/views.py`), the serializers
(`api/serializers.py`) and the model-layer constraints and save hooks
(`reviews/models.py`), with theorems settling the behavioural claims of
the specification.
-/

namespace Yamdb

/-! ## Roles and actors (reviews/models.py, `UserRole`) -/

/-- The closed role set of `reviews.models.UserRole`. -/
inductive UserRole
  | user
  | moderator
  | admin
  deriving DecidableEq, Repr

/-- An authenticated user, as far as the permission classes inspect it:
identity (username), `role` column, and the `is_superuser` flag inherited
from `AbstractUser`. -/
structure AuthUser where
  username : String
  role : UserRole
  is_superuser : Bool
  deriving DecidableEq, Repr

/-- `request.user`: `none` models Django's `AnonymousUser`
(`is_authenticated` false). -/
abbrev Actor := Option AuthUser

/-- HTTP methods reaching the permission layer. -/
inductive Method
  | get
  | head
  | options
  | post
  | put
  | patch
  | delete
  deriving DecidableEq, Repr

/-- `rest_framework.permissions.SAFE_METHODS`. -/
def SAFE_METHODS : List Method := [Method.get, Method.head, Method.options]

/-- `request.user.is_authenticated`. -/
def is_authenticated (u : Actor) : Bool :=
  match u with
  | none => false
  | some _ => true

namespace OwnerAdminModeratorOrReadOnly

/-- `OwnerAdminModeratorOrReadOnly.has_permission`
(api/permissions.py lines 7-11):
`request.method in SAFE_METHODS or request.user.is_authenticated`. -/
def has_permission (m : Method) (u : Actor) : Bool :=
  decide (m ∈ SAFE_METHODS) || is_authenticated u

/-- `OwnerAdminModeratorOrReadOnly.has_object_permission`
(api/permissions.py lines 13-20). The anonymous branch is unreachable
through the framework because `has_permission` already denies anonymous
writes, and safe methods return before the user object is inspected. -/
def has_object_permission (m : Method) (u : Actor) (author : AuthUser) : Bool :=
  if m ∈ SAFE_METHODS then
    true
  else
    match u with
    | none => false
    | some usr =>
        decide (author = usr)
          || decide (usr.role ∈ [UserRole.moderator, UserRole.admin])
          || usr.is_superuser

end OwnerAdminModeratorOrReadOnly

namespace IsAdmin

/-- `IsAdmin.has_permission` (api/permissions.py lines 23-27):
`IsAuthenticated.has_permission` conjoined with the admin-or-superuser
test. -/
def has_permission (u : Actor) : Bool :=
  is_authenticated u &&
    match u with
    | none => false
    | some usr => decide (usr.role = UserRole.admin) || usr.is_superuser

end IsAdmin

namespace IsAdminOrReadOnly

/-- `IsAdminOrReadOnly.has_permission` (api/permissions.py lines 30-35). -/
def has_permission (m : Method) (u : Actor) : Bool :=
  decide (m ∈ SAFE_METHODS) || IsAdmin.has_permission u

end IsAdminOrReadOnly

/-- The framework runs `has_permission` and then, for object-level
update/delete on Review/Comment, `has_object_permission`; access is
granted only when both pass. -/
def reviewCommentObjectDecision (m : Method) (u : Actor) (author : AuthUser) : Bool :=
  OwnerAdminModeratorOrReadOnly.has_permission m u
    && OwnerAdminModeratorOrReadOnly.has_object_permission m u author

/-! ## Spec-side permission table (§4.1), for the refinement claim C1.
These definitions follow the specification's words, to be compared with
the code-derived evaluators above. -/

/-- The four actor classes the spec table enumerates; superusers count as
admin-equivalent. -/
inductive SpecRole
  | anonymous
  | standard
  | moderator
  | admin
  deriving DecidableEq, Repr

/-- Safe read versus write, the spec's two verb classes. -/
inductive VerbClass
  | safeRead
  | write
  deriving DecidableEq, Repr

/-- The resource/operation families the §4.1 table distinguishes. -/
inductive ResourceKind
  | categoryGenreTitle
  | reviewCommentCollection
  | reviewCommentObject
  deriving DecidableEq, Repr

/-- Spec-side classification of an actor into the table's roles: a
superuser-equivalent flag counts as admin. -/
def actorRole (u : Actor) : SpecRole :=
  match u with
  | none => SpecRole.anonymous
  | some usr =>
      if usr.is_superuser then SpecRole.admin
      else
        match usr.role with
        | UserRole.user => SpecRole.standard
        | UserRole.moderator => SpecRole.moderator
        | UserRole.admin => SpecRole.admin

/-- Spec-side classification of a method into the two verb classes. -/
def verb_class (m : Method) : VerbClass :=
  if m ∈ SAFE_METHODS then VerbClass.safeRead else VerbClass.write

/-- The §4.1 table, written from the specification: safe reads always
allowed; Category/Genre/Title writes only for admin-equivalent actors;
Review/Comment list/create writes for any authenticated actor;
Review/Comment object update/delete for the author, moderators, admins
and superusers. -/
def spec_table (r : SpecRole) (v : VerbClass) (k : ResourceKind) (isOwner : Bool) : Bool :=
  match v with
  | VerbClass.safeRead => true
  | VerbClass.write =>
      match k with
      | ResourceKind.categoryGenreTitle => decide (r = SpecRole.admin)
      | ResourceKind.reviewCommentCollection => decide (r ≠ SpecRole.anonymous)
      | ResourceKind.reviewCommentObject =>
          isOwner
            || decide (r = SpecRole.moderator)
            || decide (r = SpecRole.admin)

/-- C1: for every actor (anonymous or any role/superuser combination),
every method, and every ownership state, the three code-derived
permission decisions agree with the §4.1 spec table: safe reads always
allowed; Category/Genre/Title writes only for admin-role or superuser
actors; Review/Comment list/create writes for any authenticated actor;
Review/Comment object update/delete exactly for the author, moderators,
admins and superusers. -/
theorem permission_matches_spec_table (m : Method) (u : Actor) (author : AuthUser) :
    IsAdminOrReadOnly.has_permission m u
        = spec_table (actorRole u) (verb_class m)
            ResourceKind.categoryGenreTitle (decide (u = some author))
      ∧ OwnerAdminModeratorOrReadOnly.has_permission m u
        = spec_table (actorRole u) (verb_class m)
            ResourceKind.reviewCommentCollection (decide (u = some author))
      ∧ reviewCommentObjectDecision m u author
        = spec_table (actorRole u) (verb_class m)
            ResourceKind.reviewCommentObject (decide (u = some author)) := by
  refine ⟨?_, ?_, ?_⟩ <;>
    cases u with
    | none =>
        cases m <;>
          simp [IsAdminOrReadOnly.has_permission, IsAdmin.has_permission,
            OwnerAdminModeratorOrReadOnly.has_permission,
            OwnerAdminModeratorOrReadOnly.has_object_permission,
            reviewCommentObjectDecision, is_authenticated, actorRole,
            verb_class, spec_table, SAFE_METHODS]
    | some usr =>
        cases m <;>
          rcases usr with ⟨name, role, su⟩ <;>
          cases role <;>
          cases su <;>
          simp_all [IsAdminOrReadOnly.has_permission, IsAdmin.has_permission,
            OwnerAdminModeratorOrReadOnly.has_permission,
            OwnerAdminModeratorOrReadOnly.has_object_permission,
            reviewCommentObjectDecision, is_authenticated, actorRole,
            verb_class, spec_table, SAFE_METHODS, eq_comm]

/-! ## Reviews: one review per (author, title) (C2) -/

/-- A persisted `Review` row, with the columns the uniqueness logic
inspects (`reviews/models.py`, class `Review`). -/
structure ReviewRow where
  id : Nat
  title_id : Nat
  author_id : Nat
  score : Nat
  text : String
  deriving DecidableEq, Repr

namespace ReviewSerializer

/-- `ReviewSerializer.validate` (api/serializers.py lines 92-105): on a
non-POST request the data passes through; on POST it errors when a
review with the same title (from the view kwargs) and author (the
request user) already exists. -/
def validate (m : Method) (store : List ReviewRow) (title_id author_id : Nat) :
    Except String Unit :=
  if m ≠ Method.post then Except.ok ()
  else if store.any (fun r => r.title_id == title_id && r.author_id == author_id) then
    Except.error
      ("Автор может оставлять ревью на каждое произведение "
        ++ "только один раз")
  else Except.ok ()

end ReviewSerializer

/-- The storage-level `UniqueConstraint(fields=("author", "title"),
name="author_title_only_on_review")` (reviews/models.py lines 242-247):
an insert is admissible only when no stored row shares both author and
title. -/
def author_title_only_on_review (store : List ReviewRow) (r : ReviewRow) : Bool :=
  store.all (fun s => !(s.author_id == r.author_id && s.title_id == r.title_id))

/-- Insert through the storage layer: the unique constraint rejects the
row with an integrity error independently of the serializer check. -/
def Review.insert (store : List ReviewRow) (r : ReviewRow) : Except String (List ReviewRow) :=
  if author_title_only_on_review store r then Except.ok (store ++ [r])
  else Except.error "IntegrityError: author_title_only_on_review"

/-- C2: if a review by the same author for the same title is already
stored, a second create fails in the application-level serializer check
with a descriptive error, and the storage-level unique constraint
independently rejects the insert even when that check is bypassed. -/
theorem review_unique_per_author_title (store : List ReviewRow) (r0 r : ReviewRow)
    (hmem : r0 ∈ store) (ht : r.title_id = r0.title_id) (ha : r.author_id = r0.author_id) :
    (∃ msg, ReviewSerializer.validate Method.post store r.title_id r.author_id
        = Except.error msg)
      ∧ (∃ msg, Review.insert store r = Except.error msg) := by
  have hany : store.any (fun s => s.title_id == r.title_id && s.author_id == r.author_id) = true := by
    refine List.any_eq_true.2 ⟨r0, hmem, ?_⟩
    simp [ht, ha]
  constructor
  · refine ⟨"Автор может оставлять ревью на каждое произведение "
      ++ "только один раз", ?_⟩
    simp [ReviewSerializer.validate, hany]
  · refine ⟨"IntegrityError: author_title_only_on_review", ?_⟩
    have hcon : author_title_only_on_review store r = false := by
      rcases List.any_eq_true.1 hany with ⟨s, hs, hmatch⟩
      simp only [Bool.and_eq_true, beq_iff_eq] at hmatch
      refine (Bool.eq_false_iff).2 ?_
      intro hall
      rcases hmatch with ⟨h1, h2⟩
      have := List.all_eq_true.1 hall s hs
      simp [h1, h2] at this
    simp [Review.insert, hcon]

/-- Witness for C2 at a concrete store: author 7 already reviewed
title 5, so a second review by author 7 of title 5 is rejected by both
layers. -/
theorem review_unique_per_author_title_witness :
    (∃ msg, ReviewSerializer.validate Method.post
        [⟨1, 5, 7, 8, "good"⟩] 5 7 = Except.error msg)
      ∧ (∃ msg, Review.insert [⟨1, 5, 7, 8, "good"⟩] ⟨2, 5, 7, 9, "again"⟩
        = Except.error msg) :=
  review_unique_per_author_title [⟨1, 5, 7, 8, "good"⟩] ⟨1, 5, 7, 8, "good"⟩
    ⟨2, 5, 7, 9, "again"⟩ (by simp) rfl rfl

/-! ## Title rating aggregation (C3)

`TitleViewSet.queryset` (api/views.py lines 134-140) annotates
`rating = ExpressionWrapper(Avg("reviews__score"), output_field=IntegerField())`;
`ReadTitleSerializer` (api/serializers.py lines 70-78) renders `rating`
through an integer field (Python `int`, i.e. truncation toward zero — for
the nonnegative 1..10 scores this is the floor), and a SQL `AVG` over no
rows is NULL, which the serializer renders as null. -/

/-- SQL `AVG` over the review scores of a title: NULL when there are no
reviews, otherwise the exact rational mean. -/
def sqlAvg (scores : List Nat) : Option ℚ :=
  if scores.isEmpty then none
  else some ((scores.sum : ℚ) / (scores.length : ℚ))

/-- The `rating` value a read of a Title reports: NULL stays null, a
non-null mean is truncated to an integer by the serializer field. -/
def titleRating (scores : List Nat) : Option ℤ :=
  match sqlAvg scores with
  | none => none
  | some q => some ⌊q⌋

/-- C3 counterexample: for scores [8, 9] the code reports rating 8,
which is not the arithmetic mean 17/2; the claim that the reported
rating always equals the arithmetic mean is false. -/
theorem title_rating_not_exact_mean :
    sqlAvg [8, 9] = some ((17 : ℚ) / 2)
      ∧ titleRating [8, 9] = some 8
      ∧ ¬ ((8 : ℚ) = (17 : ℚ) / 2) := by
  refine ⟨?_, ?_, by norm_num⟩
  · norm_num [sqlAvg]
  · norm_num [titleRating, sqlAvg]

/-- C3 amended: a Title with no reviews reports a null rating (not 0),
and a Title with reviews reports the floor of the arithmetic mean of the
scores — which equals the mean exactly when the mean is an integer, as
for scores [8, 10] where the rating is 9. -/
theorem title_rating_floor_of_mean :
    titleRating [] = none
      ∧ titleRating [8, 10] = some 9
      ∧ ∀ scores : List Nat, scores ≠ [] →
          titleRating scores = some (Int.ofNat (scores.sum / scores.length)) := by
  refine ⟨rfl, ?_, ?_⟩
  · norm_num [titleRating, sqlAvg]
  · intro scores hne
    have hlen : scores.isEmpty = false := by
      cases scores with
      | nil => exact absurd rfl hne
      | cons a l => rfl
    have hq : (0 : ℚ) ≤ (scores.sum : ℚ) / (scores.length : ℚ) := by
      positivity
    have hfloor : (⌊(scores.sum : ℚ) / (scores.length : ℚ)⌋₊ : ℤ)
        = ⌊(scores.sum : ℚ) / (scores.length : ℚ)⌋ :=
      Int.natCast_floor_eq_floor hq
    have hnat : ⌊(scores.sum : ℚ) / (scores.length : ℚ)⌋₊ = scores.sum / scores.length :=
      Nat.floor_div_eq_div scores.sum scores.length
    simp only [titleRating, sqlAvg, hlen, Bool.false_eq_true, if_false]
    rw [← hfloor, hnat]
    rfl

/-- Witness for C3 amended: scores [8, 10] report exactly the mean 9. -/
theorem title_rating_floor_of_mean_witness :
    titleRating [8, 10] = some (Int.ofNat (([8, 10] : List Nat).sum / ([8, 10] : List Nat).length)) :=
  title_rating_floor_of_mean.2.2 [8, 10] (by decide)

/-! ## Self-profile PATCH keeps the role (C4) -/

/-- The writable columns `UserSerializer` exposes
(api/serializers.py lines 28-38). -/
structure UserRec where
  username : String
  first_name : String
  last_name : String
  email : String
  bio : String
  role : UserRole
  deriving DecidableEq, Repr

/-- A partial-update payload: each serializer field optionally present. -/
structure UserPatch where
  username : Option String := none
  first_name : Option String := none
  last_name : Option String := none
  email : Option String := none
  bio : Option String := none
  role : Option UserRole := none
  deriving Repr

namespace UserSerializer

/-- `ModelSerializer.update`: every field present in the validated data
is written onto the instance, missing fields keep the stored value. -/
def update (inst : UserRec) (vd : UserPatch) : UserRec :=
  { username := vd.username.getD inst.username
    first_name := vd.first_name.getD inst.first_name
    last_name := vd.last_name.getD inst.last_name
    email := vd.email.getD inst.email
    bio := vd.bio.getD inst.bio
    role := vd.role.getD inst.role }

/-- `serializer.save(**kwargs)`: the kwargs are merged over the
validated data before the update, so a `role=` kwarg overrides whatever
role the payload carried. -/
def save (inst : UserRec) (vd : UserPatch) (role_kwarg : UserRole) : UserRec :=
  update inst { vd with role := some role_kwarg }

end UserSerializer

/-- The PATCH branch of `UserViewSet.get_self_user_page`
(api/views.py lines 100-107): a partial `UserSerializer` over
`request.user` with the request data, saved with
`role=request.user.role`. -/
def get_self_user_page_patch (current : UserRec) (payload : UserPatch) : UserRec :=
  UserSerializer.save current payload current.role

/-- C4: whatever role value the PATCH payload to /users/me/ carries, the
stored role after the update equals the role before it; other fields
follow the payload. -/
theorem self_patch_preserves_role (current : UserRec) (payload : UserPatch) :
    (get_self_user_page_patch current payload).role = current.role := by
  simp [get_self_user_page_patch, UserSerializer.save, UserSerializer.update]

/-! ## Token exchange (C5) -/

/-- A stored user account as the auth endpoints see it: primary key,
unique username, and the confirmation-code state bound to the user.
`default_token_generator` is an external collaborator; its check is
modelled as comparison with the code bound to the user state. -/
structure Account where
  id : Nat
  username : String
  email : String
  confirmation_code : String
  deriving DecidableEq, Repr

/-- `default_token_generator.check_token(user, code)`. -/
def check_token (u : Account) (code : String) : Bool :=
  u.confirmation_code == code

/-- The payload of `AccessToken.for_user`: the identity claim is the
user's primary key. -/
structure AccessToken where
  user_id : Nat
  deriving DecidableEq, Repr

/-- `AccessToken.for_user`. -/
def AccessToken.for_user (u : Account) : AccessToken :=
  ⟨u.id⟩

/-- The three outcomes of the `token` view. -/
inductive TokenResponse
  | notFound
  | invalidCode (msg : String)
  | ok (username : String) (tok : AccessToken)
  deriving DecidableEq, Repr

/-- The `token` view (api/views.py lines 41-55) on a request whose body
carries both fields (so `TokenSerializer.is_valid` passes):
`get_object_or_404` by username, then `check_token`, then an access
token for the user. -/
def token (users : List Account) (username confirmation_code : String) : TokenResponse :=
  match users.find? (fun u => u.username == username) with
  | none => TokenResponse.notFound
  | some user =>
      if check_token user confirmation_code then
        TokenResponse.ok username (AccessToken.for_user user)
      else TokenResponse.invalidCode "Неверный код подтверждения."

/-- C5: token exchange fails with not-found when no user has the
username, fails with the invalid-code validation error when the code
does not validate against the bound user state, and otherwise returns a
token whose identity claim is the id of the user bearing exactly that
username. -/
theorem token_exchange_spec (users : List Account) (username code : String) :
    (users.find? (fun a => a.username == username) = none →
        token users username code = TokenResponse.notFound)
      ∧ (∀ u, users.find? (fun a => a.username == username) = some u →
          check_token u code = false →
          token users username code = TokenResponse.invalidCode "Неверный код подтверждения.")
      ∧ (∀ u, users.find? (fun a => a.username == username) = some u →
          check_token u code = true →
          token users username code = TokenResponse.ok username (AccessToken.for_user u)
            ∧ u.username = username ∧ (AccessToken.for_user u).user_id = u.id) := by
  refine ⟨?_, ?_, ?_⟩
  · intro hnone
    simp [token, hnone]
  · intro u hfind hbad
    simp [token, hfind, hbad]
  · intro u hfind hgood
    have husername : u.username = username := by
      have := List.find?_some hfind
      simpa using this
    exact ⟨by simp [token, hfind, hgood], husername, rfl⟩

/-- Witness for C5 on a concrete one-user store: unknown username gives
not-found, wrong code gives the validation error, the bound code gives a
token carrying the user's id. -/
theorem token_exchange_spec_witness :
    token [⟨3, "alice", "a@x.com", "c0de42"⟩] "bob" "c0de42" = TokenResponse.notFound
      ∧ token [⟨3, "alice", "a@x.com", "c0de42"⟩] "alice" "wrong"
          = TokenResponse.invalidCode "Неверный код подтверждения."
      ∧ token [⟨3, "alice", "a@x.com", "c0de42"⟩] "alice" "c0de42"
          = TokenResponse.ok "alice" (AccessToken.for_user ⟨3, "alice", "a@x.com", "c0de42"⟩) :=
  ⟨(token_exchange_spec [⟨3, "alice", "a@x.com", "c0de42"⟩] "bob" "c0de42").1 (by decide),
    (token_exchange_spec [⟨3, "alice", "a@x.com", "c0de42"⟩] "alice" "wrong").2.1
      ⟨3, "alice", "a@x.com", "c0de42"⟩ (by decide) (by decide),
    ((token_exchange_spec [⟨3, "alice", "a@x.com", "c0de42"⟩] "alice" "c0de42").2.2
      ⟨3, "alice", "a@x.com", "c0de42"⟩ (by decide) (by decide)).1⟩

/-! ## Signup (C6, C9) and the overridden User.save (C7) -/

/-- Minimal model of `EmailField` syntactic validation: exactly one @
separating nonempty local and domain parts (abstraction of Django's
validator; only validity/invalidity matters to the claims). -/
def EmailField.is_valid (email : String) : Bool :=
  let cs := email.toList
  (cs.count '@' == 1) && (cs.head? != some '@') && (cs.getLast? != some '@')

/-- `UnicodeUsernameValidator`: nonempty, word characters and `.@+-`. -/
def UnicodeUsernameValidator (username : String) : Bool :=
  !username.isEmpty
    && username.toList.all
      (fun c => c.isAlphanum || c = '.' || c = '@' || c = '+' || c = '-' || c = '_')

namespace SignUpSerializer

/-- `SignUpSerializer.is_valid(raise_exception=True)`: field validation
(EmailField, username validator), then `validate`
(api/serializers.py lines 22-25), which rejects the reserved
username me. -/
def is_valid (username email : String) : Except String Unit :=
  if !(EmailField.is_valid email) then
    Except.error "Enter a valid email address."
  else if !(UnicodeUsernameValidator username) then
    Except.error "Enter a valid username."
  else if username == "me" then
    Except.error "Пользователь не может иметь имя me"
  else Except.ok ()

end SignUpSerializer

/-- A row of the user table, with the columns the signup flow touches. -/
structure UserRow where
  id : Nat
  username : String
  email : String
  deriving DecidableEq, Repr

/-- `User.objects.get_or_create(username=..., email=...)` over the
unique columns and the overridden `User.save`:
the fetch matches only on the exact (username, email) pair; otherwise a
new row is inserted — except that the overridden save silently skips the
insert for username me (see `User.save`), and the INSERT enforces the
unique constraints on username and on email by raising IntegrityError. -/
def get_or_create (store : List UserRow) (username email : String) (fresh_id : Nat) :
    Except String (UserRow × List UserRow) :=
  match store.find? (fun u => u.username == username && u.email == email) with
  | some u => Except.ok (u, store)
  | none =>
      if username == "me" then
        Except.ok (⟨fresh_id, username, email⟩, store)
      else if store.any (fun u => u.username == username) then
        Except.error "IntegrityError: UNIQUE constraint failed: username"
      else if store.any (fun u => u.email == email) then
        Except.error "IntegrityError: UNIQUE constraint failed: email"
      else
        Except.ok (⟨fresh_id, username, email⟩, store ++ [⟨fresh_id, username, email⟩])

/-- The possible responses of the `signup` view: a 400 raised by the
serializer, a 400 from a caught IntegrityError, or a 200 echoing the
payload. -/
inductive SignupResponse
  | validationErr (msg : String)
  | badRequest (msg : String)
  | ok (username email : String)
  deriving DecidableEq, Repr

/-- The `signup` view (api/views.py lines 58-75), paired with the user
store it leaves behind; the confirmation email is an external side
effect and is not modelled. -/
def signup (store : List UserRow) (username email : String) (fresh_id : Nat) :
    SignupResponse × List UserRow :=
  match SignUpSerializer.is_valid username email with
  | Except.error msg => (SignupResponse.validationErr msg, store)
  | Except.ok () =>
      match get_or_create store username email fresh_id with
      | Except.error e => (SignupResponse.badRequest e, store)
      | Except.ok (_, store2) => (SignupResponse.ok username email, store2)

/-- C6: for every email value and every store, signup with username me
fails with a validation error and leaves the user store unchanged, so no
User record is created. -/
theorem signup_me_always_rejected (store : List UserRow) (email : String) (fresh_id : Nat) :
    ∃ msg, signup store "me" email fresh_id = (SignupResponse.validationErr msg, store) := by
  by_cases hmail : EmailField.is_valid email = true
  · refine ⟨"Пользователь не может иметь имя me", ?_⟩
    have hu : UnicodeUsernameValidator "me" = true := by decide
    simp [signup, SignUpSerializer.is_valid, hmail, hu]
  · refine ⟨"Enter a valid email address.", ?_⟩
    simp [signup, SignUpSerializer.is_valid, hmail]

/-- Well-formed user store: distinct rows never share a username or an
email (the storage-level unique constraints hold). -/
def UserStoreWF (store : List UserRow) : Prop :=
  ∀ a ∈ store, ∀ b ∈ store, a ≠ b → a.username ≠ b.username ∧ a.email ≠ b.email

/-- C9: a signup whose username is already taken by a user with a
different email, or whose email is already taken by a user with a
different username, ends in a 400 from the caught uniqueness violation
and leaves the user store unchanged. -/
theorem signup_conflict_rejected (store : List UserRow) (username email : String)
    (fresh_id : Nat) (hwf : UserStoreWF store)
    (hmail : EmailField.is_valid email = true)
    (huser : UnicodeUsernameValidator username = true)
    (hme : username ≠ "me")
    (hconflict : ∃ u ∈ store,
      (u.username = username ∧ u.email ≠ email) ∨ (u.email = email ∧ u.username ≠ username)) :
    ∃ msg, signup store username email fresh_id = (SignupResponse.badRequest msg, store) := by
  rcases hconflict with ⟨u, hmem, hcase⟩
  have hser : SignUpSerializer.is_valid username email = Except.ok () := by
    simp [SignUpSerializer.is_valid, hmail, huser, hme]
  have hfind : store.find? (fun v => v.username == username && v.email == email) = none := by
    rw [List.find?_eq_none]
    intro x hx hmatch
    simp only [Bool.and_eq_true, beq_iff_eq] at hmatch
    rcases hmatch with ⟨hxu, hxe⟩
    rcases hcase with ⟨h1, h2⟩ | ⟨h1, h2⟩
    · have hxne : x ≠ u := by
        intro heq
        exact h2 (heq ▸ hxe ▸ rfl)
      exact ((hwf x hx u hmem hxne).1) (hxu.trans h1.symm)
    · have hxne : x ≠ u := by
        intro heq
        exact h2 (heq ▸ hxu ▸ rfl)
      exact ((hwf x hx u hmem hxne).2) (hxe.trans h1.symm)
  rcases hcase with ⟨h1, h2⟩ | ⟨h1, h2⟩
  · have hany : store.any (fun v => v.username == username) = true :=
      List.any_eq_true.2 ⟨u, hmem, by simp [h1]⟩
    refine ⟨"IntegrityError: UNIQUE constraint failed: username", ?_⟩
    simp [signup, hser, get_or_create, hfind, hme, hany]
  · by_cases hanyu : store.any (fun v => v.username == username) = true
    · refine ⟨"IntegrityError: UNIQUE constraint failed: username", ?_⟩
      simp [signup, hser, get_or_create, hfind, hme, hanyu]
    · have hanye : store.any (fun v => v.email == email) = true :=
        List.any_eq_true.2 ⟨u, hmem, by simp [h1]⟩
      have hnotex : ¬ ∃ x ∈ store, x.username = username := by
        intro hex
        exact hanyu (List.any_eq_true.2 (by simpa using hex))
      refine ⟨"IntegrityError: UNIQUE constraint failed: email", ?_⟩
      simp [signup, hser, get_or_create, hfind, hme, hanye, hnotex]

/-- Witness for C9: the store holds alice with a@x.com; signing up alice
with b@y.com is rejected with a 400 and the store is unchanged. -/
theorem signup_conflict_rejected_witness :
    ∃ msg, signup [⟨1, "alice", "a@x.com"⟩] "alice" "b@y.com" 2
        = (SignupResponse.badRequest msg, [⟨1, "alice", "a@x.com"⟩]) :=
  signup_conflict_rejected [⟨1, "alice", "a@x.com"⟩] "alice" "b@y.com" 2
    (by intro a ha b hb hne; simp at ha hb; simp [ha, hb] at hne)
    (by decide) (by decide) (by decide)
    ⟨⟨1, "alice", "a@x.com"⟩, by simp, Or.inl ⟨rfl, by decide⟩⟩

/-- The two observable outcomes of the overridden `User.save`. -/
inductive SaveOutcome
  | returned_validation_error (msg : String)
  | persisted
  deriving DecidableEq, Repr

/-- The overridden `User.save` (reviews/models.py lines 76-80). The
source line is `return ValidationError(...)`: the exception object is
returned, not raised, so the caller observes an ordinary return, nothing
is raised, and no insert happens. -/
def User.save (username : String) : SaveOutcome :=
  if username == "me" then
    SaveOutcome.returned_validation_error "Username не может быть me."
  else SaveOutcome.persisted

/-- The `CheckConstraint(check=~Q(username="me"))` of `User.Meta`
(reviews/models.py lines 107-112): a row satisfies it iff its username
is not me. -/
def user_not_me_check (username : String) : Bool :=
  !(username == "me")

/-- C7 evaluation: saving a user named me returns the ValidationError
object instead of raising it (the caller sees an ordinary return and no
row is persisted), while the storage check constraint does exclude the
username me; any other username is persisted normally. -/
theorem user_save_me_returns_error_object :
    User.save "me" = SaveOutcome.returned_validation_error "Username не может быть me."
      ∧ user_not_me_check "me" = false
      ∧ user_not_me_check "alice" = true
      ∧ User.save "alice" = SaveOutcome.persisted := by
  refine ⟨rfl, by decide, by decide, rfl⟩

/-! ## Category/Genre slug derivation (C8) -/

/-- `string.ascii_letters + string.digits`, the alphabet `rand_slug`
draws from. -/
def ascii_letters_and_digits : List Char :=
  "abcdefghijklmnopqrstuvwxyzABCDEFGHIJKLMNOPQRSTUVWXYZ0123456789".toList

/-- `rand_slug` (reviews/models.py lines 13-16): six characters drawn
from letters and digits by the given random choice function. -/
def rand_slug (choice : Fin 6 → Fin 62) : String :=
  String.mk ((List.finRange 6).map (fun i => ascii_letters_and_digits.getD (choice i) 'a'))

/-- A Python runtime value, as far as the slug-derivation expression
needs: strings and function objects. -/
inductive PyVal
  | str (s : String)
  | func (name : String)
  deriving DecidableEq, Repr

/-- Python `+` on these values: string concatenation, and a TypeError
when a function object is an operand. -/
def pyAdd : PyVal → PyVal → Except String PyVal
  | PyVal.str a, PyVal.str b => Except.ok (PyVal.str (a ++ b))
  | PyVal.func f, _ =>
      Except.error ("TypeError: unsupported operand types for +: function " ++ f ++ " and str")
  | _, PyVal.func f =>
      Except.error ("TypeError: unsupported operand types for +: str and function " ++ f)

/-- Helper for `slugify`: collapse runs of hyphens into one. -/
def squeezeDash : List Char → List Char
  | [] => []
  | [c] => [c]
  | c1 :: c2 :: rest =>
      if c1 = '-' && c2 = '-' then squeezeDash (c2 :: rest)
      else c1 :: squeezeDash (c2 :: rest)

/-- `django.utils.text.slugify`: lowercase, keep alphanumerics,
underscores, hyphens and spaces, turn space runs into single hyphens,
strip leading and trailing hyphens and underscores. -/
def slugify (s : String) : String :=
  let kept := s.toLower.toList.filter
    (fun c => c.isAlphanum || c = '_' || c = '-' || c = ' ')
  let dashed := kept.map (fun c => if c = ' ' then '-' else c)
  let strip := fun (l : List Char) => l.dropWhile (fun c => c = '-' || c = '_')
  String.mk ((strip ((strip (squeezeDash dashed)).reverse)).reverse)

/-- A `Category` row (reviews/models.py lines 115-134). -/
structure CategoryRec where
  name : String
  slug : String
  deriving DecidableEq, Repr

/-- A `Genre` row (reviews/models.py lines 137-156). -/
structure GenreRec where
  name : String
  slug : String
  deriving DecidableEq, Repr

/-- `Category.save` (reviews/models.py lines 131-134). When `slug` is
falsy the code evaluates `slugify(rand_slug + "-" + self.name[:15])`;
`rand_slug` there is the function object, not a call, so the first `+`
raises TypeError before `slugify` or the insert run. With a non-empty
slug the row is saved unchanged. -/
def Category.save (c : CategoryRec) : Except String CategoryRec :=
  if c.slug = "" then
    match pyAdd (PyVal.func "rand_slug") (PyVal.str "-") with
    | Except.error e => Except.error e
    | Except.ok v =>
        match pyAdd v (PyVal.str (String.mk (c.name.toList.take 15))) with
        | Except.error e => Except.error e
        | Except.ok (PyVal.str arg) => Except.ok { c with slug := slugify arg }
        | Except.ok (PyVal.func _) => Except.error "TypeError: slugify of a function"
  else Except.ok c

/-- `Genre.save` (reviews/models.py lines 153-156), same body as
`Category.save`. -/
def Genre.save (g : GenreRec) : Except String GenreRec :=
  if g.slug = "" then
    match pyAdd (PyVal.func "rand_slug") (PyVal.str "-") with
    | Except.error e => Except.error e
    | Except.ok v =>
        match pyAdd v (PyVal.str (String.mk (g.name.toList.take 15))) with
        | Except.error e => Except.error e
        | Except.ok (PyVal.str arg) => Except.ok { g with slug := slugify arg }
        | Except.ok (PyVal.func _) => Except.error "TypeError: slugify of a function"
  else Except.ok g

/-- C8 evaluation: saving a Category or Genre without a slug raises a
TypeError (the function object `rand_slug` is concatenated with a
string instead of being called), so no slug is derived and the save does
not succeed; a record with an explicit slug is saved unchanged. -/
theorem category_genre_auto_slug_raises_type_error :
    Category.save ⟨"Books", ""⟩
        = Except.error "TypeError: unsupported operand types for +: function rand_slug and str"
      ∧ Genre.save ⟨"Drama", ""⟩
        = Except.error "TypeError: unsupported operand types for +: function rand_slug and str"
      ∧ Category.save ⟨"Books", "books"⟩ = Except.ok ⟨"Books", "books"⟩
      ∧ Genre.save ⟨"Drama", "drama"⟩ = Except.ok ⟨"Drama", "drama"⟩ := by
  refine ⟨rfl, rfl, ?_, ?_⟩ <;> simp [Category.save, Genre.save]

/-! ## GenreTitle join rows under deletion (C10) -/

/-- A `GenreTitle` join row (reviews/models.py lines 203-207): the title
foreign key cascades on delete, the genre foreign key is nullable with
SET_NULL. -/
structure GenreTitleRow where
  id : Nat
  title_id : Nat
  genre_id : Option Nat
  deriving DecidableEq, Repr

/-- Effect of deleting genre `g` on the join table: SET_NULL on every
referencing row. -/
def Genre.delete (rows : List GenreTitleRow) (g : Nat) : List GenreTitleRow :=
  rows.map (fun r => if r.genre_id = some g then { r with genre_id := none } else r)

/-- Effect of deleting title `t` on the join table: CASCADE removes
every referencing row. -/
def Title.delete (rows : List GenreTitleRow) (t : Nat) : List GenreTitleRow :=
  rows.filter (fun r => !(r.title_id == t))

/-- C10: deleting a Genre keeps every join row (same count, same ids and
title references) and merely nulls the genre reference of the rows that
pointed at it, rows pointing elsewhere surviving untouched — unlike
deleting a Title, which removes its join rows outright. -/
theorem genre_delete_nulls_join_rows (rows : List GenreTitleRow) (g t : Nat) :
    (Genre.delete rows g).length = rows.length
      ∧ (Genre.delete rows g).map (fun r => (r.id, r.title_id))
          = rows.map (fun r => (r.id, r.title_id))
      ∧ (∀ r ∈ Genre.delete rows g, r.genre_id ≠ some g)
      ∧ (∀ r ∈ rows, r.genre_id ≠ some g → r ∈ Genre.delete rows g)
      ∧ (∀ r ∈ Title.delete rows t, r.title_id ≠ t ∧ r ∈ rows) := by
  refine ⟨?_, ?_, ?_, ?_, ?_⟩
  · simp [Genre.delete]
  · unfold Genre.delete
    rw [List.map_map]
    apply List.map_congr_left
    intro r _
    by_cases h : r.genre_id = some g <;> simp [h]
  · intro r hr
    rcases List.mem_map.1 hr with ⟨s, _, hs⟩
    by_cases h : s.genre_id = some g
    · rw [← hs]
      simp [h]
    · rw [← hs]
      simp [h]
  · intro r hr hne
    refine List.mem_map.2 ⟨r, hr, ?_⟩
    simp [hne]
  · intro r hr
    have := List.mem_filter.1 hr
    rcases this with ⟨hmem, hcond⟩
    refine ⟨?_, hmem⟩
    simpa using hcond

/-- Witness for C10 at a concrete join table: after deleting genre 3,
the row that referenced it persists with a null genre, and the row
referencing genre 4 persists unchanged. -/
theorem genre_delete_nulls_join_rows_witness :
    (⟨2, 11, some 4⟩ : GenreTitleRow)
        ∈ Genre.delete [⟨1, 10, some 3⟩, ⟨2, 11, some 4⟩] 3
      ∧ (Genre.delete [⟨1, 10, some 3⟩, ⟨2, 11, some 4⟩] 3).length = 2 :=
  ⟨(genre_delete_nulls_join_rows [⟨1, 10, some 3⟩, ⟨2, 11, some 4⟩] 3 10).2.2.2.1
      ⟨2, 11, some 4⟩ (by decide) (by decide),
    (genre_delete_nulls_join_rows [⟨1, 10, some 3⟩, ⟨2, 11, some 4⟩] 3 10).1⟩

end Yamdb
